import Mathlib

/-!
Shallow embedding of `pytex.py`, a small LaTeX document builder.

Python values that may be passed to the math constructors (strings, numbers,
math fragments) are modelled by `PyVal`; Python exceptions by `PyError`;
fallible Python code returns `Except PyError _`.  Python `%`-style formatting
with a concrete format string is modelled by splicing the argument at the
placeholder; a format string whose number of `%s` placeholders does not match
the number of supplied arguments raises `TypeError` in Python, which is
modelled by an explicit `.error` result at the call sites where the concrete
format string makes this unavoidable.
-/

deriving instance DecidableEq for Except

/-- Python exception kinds raised (or propagated) by the embedded code. -/
inductive PyError where
  | typeError (msg : String)
  | valueError (msg : String)
  | attributeError (msg : String)
  | indexError (msg : String)
  | pyException (msg : String)
deriving DecidableEq, Repr

/-- Embedding of `_LaTeXMath`: a math fragment with a content string and an
inline flag (source lines 157-174). -/
structure LaTeXMath where
  content : String
  inline : Bool
deriving DecidableEq, Repr

/-- Embedding of `_LaTeXText`: a text fragment wrapping a content string
(source lines 128-141). -/
structure LaTeXText where
  content : String
deriving DecidableEq, Repr

/-- Values acceptable where the source annotates `_LaTeXMath | Number | str`:
Python strings, integers and math fragments. -/
inductive PyVal where
  | str (s : String)
  | num (n : Int)
  | math (m : LaTeXMath)
deriving DecidableEq, Repr

/-- Python `str(x)`: identity on strings, decimal form of numbers, and the
content string for math fragments (their `__str__` returns `self.content`). -/
def PyVal.pyStr : PyVal → String
  | .str s => s
  | .num n => toString n
  | .math m => m.content

/-- Python truthiness (`if x:`): a string is truthy iff non-empty, a number
iff non-zero; objects such as math fragments are always truthy. -/
def PyVal.truthy : PyVal → Bool
  | .str s => s != ""
  | .num n => n != 0
  | .math _ => true

/-- Python truthiness of an optional string field defaulting to `None`. -/
def optTruthy : Option String → Bool
  | none => false
  | some s => s != ""

/-- Characters removed by Python `str.strip()` (the ASCII whitespace set). -/
def pyIsSpace (c : Char) : Bool :=
  c == ' ' || c == '\t' || c == '\n' || c == '\r' || c == '\x0b' || c == '\x0c'

/-- Character-list worker for Python `str.split(sep)` with a one-character
separator: split at every occurrence, keeping empty pieces, so the empty
string yields one empty piece. -/
def pySplitChars (sep : Char) : List Char → List (List Char)
  | [] => [[]]
  | c :: cs =>
      match pySplitChars sep cs with
      | r :: rs => if c = sep then [] :: r :: rs else (c :: r) :: rs
      | [] => [[c]]

/-- Python `s.split(sep)` for a one-character separator string. -/
def pySplit (s : String) (sep : Char) : List String :=
  (pySplitChars sep s.data).map (fun l => ⟨l⟩)

/-- Python `str.strip()`: remove leading and trailing whitespace. -/
def pyStrip (s : String) : String :=
  ⟨((s.data.dropWhile pyIsSpace).reverse.dropWhile pyIsSpace).reverse⟩

/-- Python `str.lower()` restricted to ASCII letters, matching its effect on
the ASCII option strings the document model compares against. -/
def pyLower (s : String) : String :=
  ⟨s.data.map (fun c =>
    if 65 ≤ c.toNat ∧ c.toNat ≤ 90 then Char.ofNat (c.toNat + 32) else c)⟩

/-- Python `s.endswith('\n')`: the last character is a newline. -/
def pyEndsWithNL (s : String) : Bool :=
  s.data.getLast? == some '\n'

/-- Embedding of `_LaTeXMath.__add__` (source lines 170-171).  The source
executes `return _LaTeXMath(self.content + str(math))`, but
`_LaTeXMath.__init__` takes two required positional arguments
`(content, inline)`; the call supplies only `content`, so every invocation
of `+` on a math fragment raises `TypeError` before a fragment is built. -/
def LaTeXMath.add (_ : LaTeXMath) (_ : PyVal) : Except PyError LaTeXMath :=
  .error (.typeError "__init__() missing 1 required positional argument: inline")

/-- Embedding of `_LaTeXMath.__neg__` (source lines 173-174). -/
def LaTeXMath.neg (m : LaTeXMath) : LaTeXMath :=
  ⟨"-" ++ m.content, m.inline⟩

/-- Embedding of `Text.__init__` (source lines 143-154): the four styling
wrappers are applied conditionally, italic first (innermost), then underline,
then bold, then emph. -/
def Text.init (content : String) (emph bold underline italic : Bool) : LaTeXText :=
  let c1 := if italic then "\\textit\x7b" ++ (content ++ "\x7d") else content
  let c2 := if underline then "\\underline\x7b" ++ (c1 ++ "\x7d") else c1
  let c3 := if bold then "\\textbf\x7b" ++ (c2 ++ "\x7d") else c2
  let c4 := if emph then "\\emph\x7b" ++ (c3 ++ "\x7d") else c3
  ⟨c4⟩

/-- Embedding of `Fraction.__init__` (source lines 177-187):
`n, d = str(fraction).split('/')` raises `ValueError` unless the split yields
exactly two parts; otherwise both parts are whitespace-stripped and rendered
as a `\frac`. -/
def Fraction.init (fraction : PyVal) (inline : Bool) : Except PyError LaTeXMath :=
  match pySplit fraction.pyStr '/' with
  | [n, d] =>
      .ok ⟨"\\frac\x7b" ++ (pyStrip n ++ ("\x7d\x7b" ++ (pyStrip d ++ "\x7d"))), inline⟩
  | parts =>
      if parts.length < 2 then
        .error (.valueError "not enough values to unpack (expected 2)")
      else
        .error (.valueError "too many values to unpack (expected 2)")

/-- Embedding of `Sqrt.__init__` (source lines 190-198). -/
def Sqrt.init (rooting : PyVal) (inline : Bool) : LaTeXMath :=
  ⟨"\\sqrt\x7b" ++ (rooting.pyStr ++ "\x7d"), inline⟩

/-- Optional `= {result}` suffix of `Integral.__init__` (source lines
224-226): appended only when `if result:` is truthy, i.e. when a result is
given and is not a falsy value (empty string, zero). -/
def resultSuffix (result : Option PyVal) : String :=
  match result with
  | some r => if r.truthy then " = \x7b" ++ (r.pyStr ++ "\x7d") else ""
  | none => ""

/-- Embedding of `Integral.__init__` (source lines 201-228).  Both limits
absent gives a bound-less integral; both present gives the subscript and
superscript form; exactly one present raises the generic `Exception`. -/
def Integral.init (integrand : PyVal) (lower_limit upper_limit result : Option PyVal)
    (inline : Bool) : Except PyError LaTeXMath :=
  let integrandS := "\x7b" ++ (integrand.pyStr ++ "\x7d")
  match lower_limit, upper_limit with
  | none, none =>
      .ok ⟨("\\int " ++ integrandS) ++ resultSuffix result, inline⟩
  | some lo, some hi =>
      .ok ⟨("\\int_" ++ (("\x7b" ++ (lo.pyStr ++ "\x7d")) ++ ("^" ++ (("\x7b" ++ (hi.pyStr ++ "\x7d")) ++ (" " ++ integrandS))))) ++ resultSuffix result, inline⟩
  | _, _ =>
      .error (.pyException "Integral must have both lower limit and upper limit or neither.")

/-- Metadata of `_LaTeXDocument.__init__` (source lines 12-22).  The source
stores `set([i.lower() for i in opts])`; we keep the raw list and expose the
lowered collection through `optSet` (`set` is used only for membership
tests, so a list of lowered strings is an adequate model). -/
structure LaTeXDocument where
  document_type : String
  font_size : Int
  paper_type : String
  title : Option String
  author : Option String
  thanks : Option String
  date : Option String
  make_title : Bool
  opts : List String
deriving DecidableEq, Repr

/-- The lowered option collection `self.opts` (source line 22). -/
def LaTeXDocument.optSet (d : LaTeXDocument) : List String :=
  d.opts.map pyLower

/-- Document-open marker emitted by `start_new_document` (source line 54). -/
def openMarker : String := "\\begin{document}\n"

/-- Closing marker appended at write time (source lines 62-63). -/
def endMarker : String := "\\end{document}"

/-- Encoding directive (source line 28). -/
def inputencLine : String := "\\usepackage[utf8]{inputenc}\n"

/-- Package line gated by the `abnt` option (source lines 31-33). -/
def abntLine : String :=
  "\\usepackage[alf, abnt-emphasize=bf, recuo=0cm, abnt-etal-cite=2, abnt-etal-list=0]{abntex2cite} % Citações padrão ABNT\n"

/-- Package line gated by the `figures` option (source lines 34-35). -/
def figuresLine : String := "\\usepackage{graphicx}\n"

/-- Package line gated by `float` nested under `figures` (source lines 36-37). -/
def floatLine : String := "\\usepackage{float}\n"

/-- Package line gated by the `indentfirst` option (source lines 38-39). -/
def indentfirstLine : String := "\\usepackage{indentfirst}\n"

/-- Document-class line (source line 25): the f-string splices the font size
and paper type, then `%` splices the document type at the single `{%s}`
placeholder. -/
def docClassLine (d : LaTeXDocument) : String :=
  "\\documentclass[" ++ (toString d.font_size ++ ("pt, " ++ (d.paper_type ++ ("]\x7b" ++ (d.document_type ++ "\x7d\n\n")))))

/-- Title directive `'\\title{%s}\n' % self.title` (source line 44). -/
def titleLine (t : String) : String := "\\title\x7b" ++ (t ++ "\x7d\n")

/-- Author directive without thanks, `'\\author{%s}\n' % self.author`
(source line 50). -/
def authorLineSolo (a : String) : String := "\\author\x7b" ++ (a ++ "\x7d\n")

/-- Date directive `'\\date{%s}\n' % self.date` (source line 52). -/
def dateLine (dt : String) : String := "\\date\x7b" ++ (dt ++ "\x7d\n")

/-- Author block of `start_new_document` (source lines 45-50).  When both
author and thanks are truthy the source evaluates
`'\\author{%s\\thanks{%s}}\n' % self.author % self.thanks`: the first `%`
application sees two `%s` placeholders but a single (non-tuple) argument,
so Python raises `TypeError: not enough arguments for format string`. -/
def authorLines (author thanks : Option String) : Except PyError (List String) :=
  if optTruthy author then
    if optTruthy thanks then
      .error (.typeError "not enough arguments for format string")
    else
      .ok [authorLineSolo (author.getD "")]
  else
    .ok []

/-- Embedding of `_LaTeXDocument.start_new_document` (source lines 24-59). -/
def start_new_document (d : LaTeXDocument) : Except PyError (List String) :=
  match authorLines d.author d.thanks with
  | .error e => .error e
  | .ok al =>
      .ok ([docClassLine d, inputencLine]
        ++ ((if "abnt" ∈ d.optSet then [abntLine] else [])
        ++ ((if "figures" ∈ d.optSet then figuresLine :: (if "float" ∈ d.optSet then [floatLine] else []) else [])
        ++ ((if "indentfirst" ∈ d.optSet then [indentfirstLine] else [])
        ++ (["\n"]
        ++ ((if optTruthy d.title then [titleLine (d.title.getD "")] else [])
        ++ (al
        ++ ((if optTruthy d.date then [dateLine (d.date.getD "")] else [])
        ++ ([openMarker]
        ++ ((if d.make_title then ["\\maketitle\n"] else [])
        ++ ["\\frenchspacing\n\n"]))))))))))

/-- Embedding of `_LaTeXDocument.write_document` (source lines 61-65):
`lines[-1]` raises `IndexError` on an empty list; otherwise the closing
marker is appended exactly when the last line is not already the marker.
The function returns the final line sequence that is serialized to disk. -/
def write_document (lines : List String) : Except PyError (List String) :=
  match lines.getLast? with
  | none => .error (.indexError "list index out of range")
  | some last => .ok (if last = endMarker then lines else lines ++ [endMarker])

/-- Content values acceptable to `PyTeX.append_content`: the annotation says
`_LaTeXMath | str`, but a caller may also pass a `Text` fragment, which the
body does not convert to a string. -/
inductive Content where
  | math (m : LaTeXMath)
  | text (t : LaTeXText)
  | str (s : String)
deriving DecidableEq, Repr

/-- Embedding of `PyTeX._remove_end_content` (source lines 98-100). -/
def remove_end_content (ls : List String) : Except PyError (List String) :=
  match ls.getLast? with
  | none => .error (.indexError "list index out of range")
  | some last => .ok (if last = endMarker then ls.dropLast else ls)

/-- Math-environment wrapping step of `append_content` (source lines
114-119): inline math fragments go into a `math` environment, others into
an `equation` environment. -/
def mathEnvWrap (m : LaTeXMath) : String :=
  if m.inline then
    "\\begin{math}\n" ++ (("\t" ++ (m.content ++ "\n")) ++ "\\end{math}")
  else
    "\\begin{equation}\n" ++ (("\t" ++ (m.content ++ "\n")) ++ "\\end{equation}")

/-- Trailing-newline step of `append_content` (source lines 121-123): add a
newline if the string lacks one, then add one more blank line. -/
def ensureNL (s : String) : String :=
  (if pyEndsWithNL s then s else s ++ "\n") ++ "\n"

/-- Embedding of `PyTeX.append_content` (source lines 102-125).  After the
trailing-marker removal, math fragments are unwrapped and re-wrapped in a
math environment; plain strings pass through; a `Text` fragment reaches
`content.endswith('\n')` while still being a `_LaTeXText` object, which has
no `endswith` attribute, so Python raises `AttributeError`.  (In Python the
marker removal has already mutated the list when that exception fires; the
claims only concern the raised error, so the error result here discards the
partial mutation.) -/
def append_content (ls : List String) (content : Content) : Except PyError (List String) :=
  match remove_end_content ls with
  | .error e => .error e
  | .ok stripped =>
      match content with
      | .math m => .ok (stripped ++ [ensureNL (mathEnvWrap m)])
      | .str s => .ok (stripped ++ [ensureNL s])
      | .text _ => .error (.attributeError "object has no attribute endswith")

/-- Builder line sequences reachable for a fixed document: the initial lines
from `start_new_document`, closed under successful `append_content` and
`write_document` steps. -/
inductive ReachesLines (d : LaTeXDocument) : List String → Prop where
  | init (ls : List String) (h : start_new_document d = .ok ls) : ReachesLines d ls
  | app (ls out : List String) (c : Content) (hr : ReachesLines d ls)
      (h : append_content ls c = .ok out) : ReachesLines d out
  | wr (ls out : List String) (hr : ReachesLines d ls)
      (h : write_document ls = .ok out) : ReachesLines d out

/-- Spec-side wrapper for one conditional styling layer of a Text Run. -/
def condWrap (cmd : String) (flag : Bool) (s : String) : String :=
  if flag then cmd ++ ("\x7b" ++ (s ++ "\x7d")) else s

/-- Spec-side restatement of step (a) of the append contract: drop the last
line when it is the closing marker. -/
def stripMarker (ls : List String) : List String :=
  if ls.getLast? = some endMarker then ls.dropLast else ls

/-- Spec-side restatement of step (c) of the append contract: ensure a
trailing newline, then append one more newline. -/
def pushForm (s : String) : String :=
  (if pyEndsWithNL s then s else s ++ "\n") ++ "\n"

/-- Python `s.endswith(suffix)` for arbitrary suffixes, on character lists. -/
def pyEndsWith (s suffix : String) : Bool :=
  (s.data.reverse.take suffix.data.length).reverse == suffix.data

/-- Two strings differ when the second does not start with the first string's
characters; used to separate document lines that embed arbitrary user text
from the fixed marker and package lines. -/
theorem append_ne_of_take (p r c : String) (h : c.data.take p.data.length ≠ p.data) :
    p ++ r ≠ c := by
  intro he
  apply h
  rw [← he, String.data_append, List.take_left]

/-- A string ending in a newline never equals a string whose last character
is not a newline. -/
theorem append_nl_ne (y c : String) (h : c.data.getLast? ≠ some '\n') :
    y ++ "\n" ≠ c := by
  intro he
  apply h
  rw [← he, String.data_append, show ("\n" : String).data = ['\n'] from rfl,
    List.getLast?_concat]

/-- C1: the claim states that `m + x` returns a fragment concatenating the
contents with the left operand's inline flag and never raises.  In the code,
`_LaTeXMath.__add__` calls `_LaTeXMath(self.content + str(math))` with the
required `inline` argument missing, so every concatenation raises
`TypeError`; evaluated here at `Sqrt(4) + Sqrt(9)`, and shown to error for
all operands. -/
theorem c1_math_add_always_raises :
    LaTeXMath.add ⟨"\\sqrt{4}", false⟩ (.math ⟨"\\sqrt{9}", true⟩)
      = .error (.typeError "__init__() missing 1 required positional argument: inline")
    ∧ ∀ (m : LaTeXMath) (x : PyVal), ∃ e, LaTeXMath.add m x = .error e :=
  ⟨rfl, fun _ _ => ⟨_, rfl⟩⟩

/-- C2: the claim states `initial_lines()` never raises and renders a nested
author-with-thanks directive.  In the code, when author and thanks are both
non-empty, `'\author{%s\thanks{%s}}\n' % self.author % self.thanks` applies
`%` to a two-placeholder format with a single argument, raising `TypeError`;
evaluated here at author `"A"`, thanks `"T"`. -/
theorem c2_author_thanks_raises :
    start_new_document ⟨"article", 12, "a4paper", none, some "A", some "T", none, false, []⟩
      = .error (.typeError "not enough arguments for format string") := by
  decide

/-- C3: the `Fraction` constructor fails (with the `ValueError` that the spec
names MalformedInputError) exactly when the input does not split on `/` into
two parts; on a two-part split it strips both sides and renders the
`\frac{numerator}{denominator}` content; the spec's three concrete examples
are also evaluated. -/
theorem c3_fraction_split_and_error :
    (∀ (s : String) (inline : Bool),
      (∃ msg, Fraction.init (.str s) inline = .error (.valueError msg))
        ↔ (pySplit s '/').length ≠ 2)
    ∧ (∀ (s n d : String) (inline : Bool), pySplit s '/' = [n, d] →
        Fraction.init (.str s) inline
          = .ok ⟨"\\frac\x7b" ++ (pyStrip n ++ ("\x7d\x7b" ++ (pyStrip d ++ "\x7d"))), inline⟩)
    ∧ Fraction.init (.str "6/3") false = .ok ⟨"\\frac{6}{3}", false⟩
    ∧ Fraction.init (.str " 6 / 3 ") false = .ok ⟨"\\frac{6}{3}", false⟩
    ∧ (∃ msg, Fraction.init (.str "6") false = .error (.valueError msg)) := by
  refine ⟨?_, ?_, by decide, by decide,
    ⟨"not enough values to unpack (expected 2)", by decide⟩⟩
  · intro s inline
    rcases h : pySplit s '/' with _ | ⟨n, _ | ⟨d, _ | ⟨x, rest⟩⟩⟩ <;>
      simp [Fraction.init, PyVal.pyStr, h]
    split <;> exact ⟨_, rfl⟩
  · intro s n d inline h
    simp [Fraction.init, PyVal.pyStr, h]

/-- C3 witness: the two-part branch of the theorem applied to the concrete
input `" 6 / 3 "`. -/
theorem c3_fraction_witness :
    pySplit " 6 / 3 " '/' = [" 6 ", " 3 "]
    ∧ Fraction.init (.str " 6 / 3 ") false
        = .ok ⟨"\\frac\x7b" ++ (pyStrip " 6 " ++ ("\x7d\x7b" ++ (pyStrip " 3 " ++ "\x7d"))), false⟩ :=
  ⟨by decide, c3_fraction_split_and_error.2.1 " 6 / 3 " " 6 " " 3 " false (by decide)⟩

/-- C4: the `Integral` constructor raises (the generic `Exception` that the
spec names InvalidBoundsError) exactly when one limit is supplied without the
other; with no limits it renders the bound-less form, with both limits the
subscript and superscript form; the spec's two concrete examples are also
evaluated. -/
theorem c4_integral_bounds_validation :
    (∀ (integrand : PyVal) (l u r : Option PyVal) (inline : Bool),
      (∃ msg, Integral.init integrand l u r inline = .error (.pyException msg))
        ↔ l.isSome ≠ u.isSome)
    ∧ (∀ (integrand : PyVal) (r : Option PyVal) (inline : Bool),
        Integral.init integrand none none r inline
          = .ok ⟨("\\int " ++ ("\x7b" ++ (integrand.pyStr ++ "\x7d"))) ++ resultSuffix r, inline⟩)
    ∧ (∀ (integrand lo hi : PyVal) (r : Option PyVal) (inline : Bool),
        Integral.init integrand (some lo) (some hi) r inline
          = .ok ⟨("\\int_" ++ (("\x7b" ++ (lo.pyStr ++ "\x7d")) ++ ("^" ++ (("\x7b" ++ (hi.pyStr ++ "\x7d")) ++ (" " ++ ("\x7b" ++ (integrand.pyStr ++ "\x7d"))))))) ++ resultSuffix r, inline⟩)
    ∧ Integral.init (.str "x") (some (.num 0)) none none false
        = .error (.pyException "Integral must have both lower limit and upper limit or neither.")
    ∧ Integral.init (.str "x") (some (.num 0)) (some (.num 1)) (some (.str "5")) false
        = .ok ⟨"\\int_{0}^{1} {x} = {5}", false⟩ := by
  refine ⟨?_, fun _ _ _ => rfl, fun _ _ _ _ _ => rfl, by decide, by decide⟩
  intro integrand l u r inline
  rcases l with _ | lo <;> rcases u with _ | hi <;> simp [Integral.init]

/-- C4 witness: the no-bounds branch of the theorem applied to a concrete
integrand and result. -/
theorem c4_integral_witness :
    Integral.init (.str "x") none none (some (.str "5")) false
      = .ok ⟨("\\int " ++ ("\x7b" ++ ((PyVal.str "x").pyStr ++ "\x7d"))) ++ resultSuffix (some (.str "5")), false⟩ :=
  c4_integral_bounds_validation.2.1 (.str "x") (some (.str "5")) false

/-- C6 counterexample: the claim states that whenever a result argument is
given the content ends with the result suffix.  A result of `0` is given but
Python-falsy (`if result:`), so the suffix is omitted: the content is the
bare bound-less integral and does not end with ` = {0}`. -/
theorem c6_falsy_result_counterexample :
    Integral.init (.str "x") none none (some (.num 0)) false
      = .ok ⟨"\\int {x}", false⟩
    ∧ pyEndsWith "\\int {x}" " = {0}" = false := by
  constructor <;> decide

/-- C6 amended: the suffix ` = {result}` is appended exactly when the result
argument is given and truthy; with a falsy result the content coincides with
the no-result rendering. -/
theorem c6_result_suffix_amended (integrand : PyVal) (l u : Option PyVal) (r : PyVal)
    (inline : Bool) (m m0 : LaTeXMath)
    (h1 : Integral.init integrand l u (some r) inline = .ok m)
    (h2 : Integral.init integrand l u none inline = .ok m0) :
    (r.truthy = true → m.content = m0.content ++ (" = \x7b" ++ (r.pyStr ++ "\x7d")))
    ∧ (r.truthy = false → m.content = m0.content) := by
  rcases l with _ | lo <;> rcases u with _ | hi <;>
    simp [Integral.init, resultSuffix] at h1 h2 <;>
    subst h1 <;> subst h2 <;> constructor <;> intro ht <;>
    simp [ht, String.append_empty]

/-- C6 witness: the amended theorem applied to a truthy concrete result. -/
theorem c6_result_suffix_witness :
    Integral.init (.str "x") none none (some (.str "5")) false
      = .ok ⟨"\\int {x} = {5}", false⟩
    ∧ Integral.init (.str "x") none none none false = .ok ⟨"\\int {x}", false⟩
    ∧ (((PyVal.str "5").truthy = true →
        ("\\int {x} = {5}" : String) = "\\int {x}" ++ (" = \x7b" ++ ("5" ++ "\x7d")))
      ∧ ((PyVal.str "5").truthy = false → ("\\int {x} = {5}" : String) = "\\int {x}")) :=
  ⟨by decide, by decide,
    c6_result_suffix_amended (.str "x") none none (.str "5") false
      ⟨"\\int {x} = {5}", false⟩ ⟨"\\int {x}", false⟩ (by decide) (by decide)⟩

/-- C9: the Text constructor applies the styling wrappers in the fixed
nesting order italic innermost, then underline, then bold, then emphasis
outermost, each conditionally on its flag; with all flags false the content
is unmodified. -/
theorem c9_text_nesting_order (content : String) (emph bold underline italic : Bool) :
    (Text.init content emph bold underline italic).content
      = condWrap "\\emph" emph
          (condWrap "\\textbf" bold
            (condWrap "\\underline" underline
              (condWrap "\\textit" italic content)))
    ∧ (Text.init content false false false false).content = content := by
  refine ⟨?_, rfl⟩
  cases emph <;> cases bold <;> cases underline <;> cases italic <;> rfl

/-- C10: the document constructor lowercases each option before storing the
option set, so two opts lists that agree after lowercasing give identical
`initial_lines()` results. -/
theorem c10_opts_case_insensitive (d : LaTeXDocument) (o1 o2 : List String)
    (h : o1.map pyLower = o2.map pyLower) :
    start_new_document { d with opts := o1 } = start_new_document { d with opts := o2 } := by
  obtain ⟨dt, fs, pt, ti, au, th, da, mk, op⟩ := d
  simp only [start_new_document, LaTeXDocument.optSet, docClassLine, authorLines]
  simp only [h]

/-- C10 witness: the theorem applied to `["ABNT"]` and `["abnt"]`. -/
theorem c10_opts_witness :
    (["ABNT"].map pyLower = ["abnt"].map pyLower)
    ∧ start_new_document ⟨"article", 12, "a4paper", none, none, none, none, false, ["ABNT"]⟩
        = start_new_document ⟨"article", 12, "a4paper", none, none, none, none, false, ["abnt"]⟩ :=
  ⟨by decide,
    c10_opts_case_insensitive ⟨"article", 12, "a4paper", none, none, none, none, false, []⟩
      ["ABNT"] ["abnt"] (by decide)⟩

/-- Any list with a known last element decomposes as its front plus that
element. -/
theorem eq_dropLast_concat_of_getLast? {α} (ls : List α) (x : α)
    (hx : ls.getLast? = some x) : ls = ls.dropLast ++ [x] := by
  have hne : ls ≠ [] := by
    intro he
    rw [he] at hx
    exact Option.noConfusion hx
  have hg := List.getLast?_eq_getLast ls hne
  rw [hg] at hx
  obtain rfl : ls.getLast hne = x := Option.some.injEq _ _ ▸ congrArg (Option.getD · x) hx
  exact (List.dropLast_append_getLast hne).symm

/-- The entry pushed by an append ends in a newline, hence is never the
closing marker. -/
theorem ensureNL_ne_endMarker (s : String) : ensureNL s ≠ endMarker := by
  unfold ensureNL
  exact append_nl_ne _ _ (by decide)

/-- C8 counterexample: two divergences between the claim and the code, each
at a concrete input.  First, the claim states a text run passed to append is
used unchanged and pushed; in the code, a `Text` value skips the math
unwrapping and then hits `content.endswith('\n')` while still being a
`_LaTeXText` object, raising `AttributeError` instead of appending.  Second,
the claim's step (c) states the resulting string is made to end with exactly
one trailing newline before the blank line is appended; in the code, a plain
string that already ends in two newlines is not normalized — appending
`"hi\n\n"` pushes `"hi\n\n\n"`, not the `"hi\n\n"` that the claim
prescribes. -/
theorem c8_append_counterexample :
    append_content [openMarker] (.text ⟨"hi"⟩)
      = .error (.attributeError "object has no attribute endswith")
    ∧ append_content [openMarker] (.str "hi\n\n") = .ok [openMarker, "hi\n\n\n"]
    ∧ ("hi\n\n\n" : String) ≠ "hi\n\n" :=
  ⟨by decide, by decide, by decide⟩

/-- C8 amended: on a non-empty line list, append removes a trailing closing
marker, wraps a math fragment in the inline or display environment, passes a
plain string through unchanged, normalizes the trailing newline and adds a
blank line, and pushes exactly one entry (so repeating an append adds a
second, identical entry rather than deduplicating); a `Text` fragment is not
accepted and raises `AttributeError`. -/
theorem c8_append_behavior_amended (ls : List String) (c : Content) (h : ls ≠ []) :
    (append_content ls c = match c with
      | .math m => .ok (stripMarker ls ++ [pushForm (mathEnvWrap m)])
      | .str s => .ok (stripMarker ls ++ [pushForm s])
      | .text _ => .error (.attributeError "object has no attribute endswith"))
    ∧ (∀ out out2, append_content ls c = .ok out → append_content out c = .ok out2 →
        ∃ entry, out2 = out ++ [entry] ∧ entry ∈ out) := by
  rcases hx : ls.getLast? with _ | x
  · exact absurd (List.getLast?_eq_none_iff.mp hx) h
  constructor
  · cases c <;>
      simp [append_content, remove_end_content, stripMarker, pushForm, ensureNL, hx]
  · intro out out2 h1 h2
    cases c with
    | text t => simp [append_content, remove_end_content, hx] at h1
    | math m =>
        simp only [append_content, remove_end_content, hx] at h1
        injection h1 with h1'
        subst h1'
        simp only [append_content, remove_end_content, List.getLast?_concat,
          if_neg (ensureNL_ne_endMarker (mathEnvWrap m))] at h2
        injection h2 with h2'
        subst h2'
        exact ⟨ensureNL (mathEnvWrap m), rfl, List.mem_append_right _ (by simp)⟩
    | str s =>
        simp only [append_content, remove_end_content, hx] at h1
        injection h1 with h1'
        subst h1'
        simp only [append_content, remove_end_content, List.getLast?_concat,
          if_neg (ensureNL_ne_endMarker s)] at h2
        injection h2 with h2'
        subst h2'
        exact ⟨ensureNL s, rfl, List.mem_append_right _ (by simp)⟩

/-- C8 witness: the amended theorem applied to a one-line builder state and a
plain string. -/
theorem c8_append_witness :
    (([openMarker] : List String) ≠ [])
    ∧ (append_content [openMarker] (.str "hi")
        = .ok (stripMarker [openMarker] ++ [pushForm "hi"]))
    ∧ (∀ out out2, append_content [openMarker] (.str "hi") = .ok out →
        append_content out (.str "hi") = .ok out2 →
        ∃ entry, out2 = out ++ [entry] ∧ entry ∈ out) :=
  ⟨by decide,
    (c8_append_behavior_amended [openMarker] (.str "hi") (by decide)).1,
    (c8_append_behavior_amended [openMarker] (.str "hi") (by decide)).2⟩

/-- The document-class line never coincides with a package line or a
document marker: it starts with `\documentclass[`. -/
theorem docClassLine_ne (d : LaTeXDocument) :
    docClassLine d ≠ abntLine ∧ docClassLine d ≠ figuresLine ∧ docClassLine d ≠ floatLine
    ∧ docClassLine d ≠ indentfirstLine ∧ docClassLine d ≠ openMarker
    ∧ docClassLine d ≠ endMarker :=
  ⟨append_ne_of_take "\\documentclass[" _ _ (by decide),
   append_ne_of_take "\\documentclass[" _ _ (by decide),
   append_ne_of_take "\\documentclass[" _ _ (by decide),
   append_ne_of_take "\\documentclass[" _ _ (by decide),
   append_ne_of_take "\\documentclass[" _ _ (by decide),
   append_ne_of_take "\\documentclass[" _ _ (by decide)⟩

/-- A title line never coincides with a package line or a document marker:
it starts with `\title`. -/
theorem titleLine_ne (t : String) :
    titleLine t ≠ abntLine ∧ titleLine t ≠ figuresLine ∧ titleLine t ≠ floatLine
    ∧ titleLine t ≠ indentfirstLine ∧ titleLine t ≠ openMarker
    ∧ titleLine t ≠ endMarker :=
  ⟨append_ne_of_take "\\title\x7b" _ _ (by decide),
   append_ne_of_take "\\title\x7b" _ _ (by decide),
   append_ne_of_take "\\title\x7b" _ _ (by decide),
   append_ne_of_take "\\title\x7b" _ _ (by decide),
   append_ne_of_take "\\title\x7b" _ _ (by decide),
   append_ne_of_take "\\title\x7b" _ _ (by decide)⟩

/-- An author line never coincides with a package line or a document marker:
it starts with `\author`. -/
theorem authorLineSolo_ne (a : String) :
    authorLineSolo a ≠ abntLine ∧ authorLineSolo a ≠ figuresLine
    ∧ authorLineSolo a ≠ floatLine ∧ authorLineSolo a ≠ indentfirstLine
    ∧ authorLineSolo a ≠ openMarker ∧ authorLineSolo a ≠ endMarker :=
  ⟨append_ne_of_take "\\author\x7b" _ _ (by decide),
   append_ne_of_take "\\author\x7b" _ _ (by decide),
   append_ne_of_take "\\author\x7b" _ _ (by decide),
   append_ne_of_take "\\author\x7b" _ _ (by decide),
   append_ne_of_take "\\author\x7b" _ _ (by decide),
   append_ne_of_take "\\author\x7b" _ _ (by decide)⟩

/-- A date line never coincides with a package line or a document marker:
it starts with `\date`. -/
theorem dateLine_ne (dt : String) :
    dateLine dt ≠ abntLine ∧ dateLine dt ≠ figuresLine ∧ dateLine dt ≠ floatLine
    ∧ dateLine dt ≠ indentfirstLine ∧ dateLine dt ≠ openMarker
    ∧ dateLine dt ≠ endMarker :=
  ⟨append_ne_of_take "\\date\x7b" _ _ (by decide),
   append_ne_of_take "\\date\x7b" _ _ (by decide),
   append_ne_of_take "\\date\x7b" _ _ (by decide),
   append_ne_of_take "\\date\x7b" _ _ (by decide),
   append_ne_of_take "\\date\x7b" _ _ (by decide),
   append_ne_of_take "\\date\x7b" _ _ (by decide)⟩

/-- Membership in a conditionally-included segment. -/
theorem mem_ite_list {α} (P : Prop) [Decidable P] (x : α) (l : List α) :
    (x ∈ if P then l else []) ↔ (P ∧ x ∈ l) := by
  split <;> simp_all

/-- Count in a conditionally-included segment. -/
theorem count_ite_list {α} [BEq α] (P : Prop) [Decidable P] (x : α) (l : List α) :
    (if P then l else []).count x = if P then l.count x else 0 := by
  split <;> rfl

/-- A successful `start_new_document` call produces exactly the preamble
shape of the source: fixed head, option-gated package segment, separator,
optional title, author block, optional date, open marker, optional maketitle,
and the spacing line. -/
theorem start_ok_shape (d : LaTeXDocument) (ls : List String)
    (h : start_new_document d = .ok ls) :
    ∃ al, authorLines d.author d.thanks = .ok al
      ∧ (al = [] ∨ ∃ a, al = [authorLineSolo a])
      ∧ ls = [docClassLine d, inputencLine]
        ++ ((if "abnt" ∈ d.optSet then [abntLine] else [])
        ++ ((if "figures" ∈ d.optSet then figuresLine :: (if "float" ∈ d.optSet then [floatLine] else []) else [])
        ++ ((if "indentfirst" ∈ d.optSet then [indentfirstLine] else [])
        ++ (["\n"]
        ++ ((if optTruthy d.title then [titleLine (d.title.getD "")] else [])
        ++ (al
        ++ ((if optTruthy d.date then [dateLine (d.date.getD "")] else [])
        ++ ([openMarker]
        ++ ((if d.make_title then ["\\maketitle\n"] else [])
        ++ ["\\frenchspacing\n\n"]))))))))) := by
  rcases hau : authorLines d.author d.thanks with e | al
  · rw [start_new_document, hau] at h
    exact absurd h (by simp)
  · rw [start_new_document, hau] at h
    injection h with h'
    refine ⟨al, rfl, ?_, h'.symm⟩
    unfold authorLines at hau
    split at hau
    · split at hau
      · exact absurd hau (by simp)
      · injection hau with hau'
        exact Or.inr ⟨_, hau'.symm⟩
    · injection hau with hau'
      exact Or.inl hau'.symm

/-- Membership characterization for the initial line list: a string that is
none of the fixed head and tail lines, none of the metadata lines, and not
an author-block line belongs to the list exactly when it is one of the four
option-gated package lines whose gating condition holds. -/
theorem mem_start_shape (d : LaTeXDocument) (al : List String) (x : String)
    (hal : x ∉ al) (h1 : x ≠ docClassLine d) (h2 : x ≠ inputencLine) (h3 : x ≠ "\n")
    (h4 : x ≠ titleLine (d.title.getD "")) (h5 : x ≠ dateLine (d.date.getD ""))
    (h6 : x ≠ openMarker) (h7 : x ≠ "\\maketitle\n") (h8 : x ≠ "\\frenchspacing\n\n") :
    (x ∈ [docClassLine d, inputencLine]
        ++ ((if "abnt" ∈ d.optSet then [abntLine] else [])
        ++ ((if "figures" ∈ d.optSet then figuresLine :: (if "float" ∈ d.optSet then [floatLine] else []) else [])
        ++ ((if "indentfirst" ∈ d.optSet then [indentfirstLine] else [])
        ++ (["\n"]
        ++ ((if optTruthy d.title then [titleLine (d.title.getD "")] else [])
        ++ (al
        ++ ((if optTruthy d.date then [dateLine (d.date.getD "")] else [])
        ++ ([openMarker]
        ++ ((if d.make_title then ["\\maketitle\n"] else [])
        ++ ["\\frenchspacing\n\n"])))))))))
      ↔ (("abnt" ∈ d.optSet ∧ x = abntLine)
        ∨ ("figures" ∈ d.optSet ∧ x = figuresLine)
        ∨ ("figures" ∈ d.optSet ∧ "float" ∈ d.optSet ∧ x = floatLine)
        ∨ ("indentfirst" ∈ d.optSet ∧ x = indentfirstLine))) := by
  simp [List.mem_append, List.mem_cons, mem_ite_list, h1, h2, h3, h4, h5, h6, h7, h8, hal]
  tauto

/-- C5 counterexample: the claim states each option-gated package line is
present iff its flag is in the option set.  With the option set `{"float"}`
the float flag is present but the float package line is not emitted, because
the source only emits it nested under the figures branch. -/
theorem c5_float_gating_counterexample :
    "float" ∈ (⟨"article", 12, "a4paper", none, none, none, none, false, ["float"]⟩ : LaTeXDocument).optSet
    ∧ start_new_document ⟨"article", 12, "a4paper", none, none, none, none, false, ["float"]⟩
        = .ok ["\\documentclass[12pt, a4paper]{article}\n\n", inputencLine, "\n", openMarker, "\\frenchspacing\n\n"]
    ∧ floatLine ∉ (["\\documentclass[12pt, a4paper]{article}\n\n", inputencLine, "\n", openMarker, "\\frenchspacing\n\n"] : List String) :=
  ⟨by decide, by decide, by decide⟩

/-- C5 amended: every successful `initial_lines()` result contains exactly
one document-open marker; the abnt, figures and indentfirst package lines
are present iff their flag is in the option set, while the float line is
present iff both the float and figures flags are; and the gated lines occur
in the fixed canonical order abnt, figures, float, indentfirst. -/
theorem c5_package_lines_amended (d : LaTeXDocument) (ls : List String)
    (h : start_new_document d = .ok ls) :
    ls.count openMarker = 1
    ∧ (abntLine ∈ ls ↔ "abnt" ∈ d.optSet)
    ∧ (figuresLine ∈ ls ↔ "figures" ∈ d.optSet)
    ∧ (floatLine ∈ ls ↔ ("figures" ∈ d.optSet ∧ "float" ∈ d.optSet))
    ∧ (indentfirstLine ∈ ls ↔ "indentfirst" ∈ d.optSet)
    ∧ List.Sublist ((if "abnt" ∈ d.optSet then [abntLine] else [])
        ++ ((if "figures" ∈ d.optSet then figuresLine :: (if "float" ∈ d.optSet then [floatLine] else []) else [])
        ++ (if "indentfirst" ∈ d.optSet then [indentfirstLine] else []))) ls := by
  obtain ⟨al, hau, hsh, rfl⟩ := start_ok_shape d ls h
  obtain ⟨d1, d2, d3, d4, d5, d6⟩ := docClassLine_ne d
  obtain ⟨t1, t2, t3, t4, t5, t6⟩ := titleLine_ne (d.title.getD "")
  obtain ⟨dt1, dt2, dt3, dt4, dt5, dt6⟩ := dateLine_ne (d.date.getD "")
  have hnotin : ∀ x : String, (∀ a : String, x ≠ authorLineSolo a) → x ∉ al := by
    rcases hsh with rfl | ⟨a, rfl⟩
    · intro x _hx
      simp
    · intro x hx
      simp [hx a]
  refine ⟨?_, ?_, ?_, ?_, ?_, ?_⟩
  · rcases hsh with rfl | ⟨a, rfl⟩
    · simp +decide [List.count_append, count_ite_list, List.count_cons, d5, t5, dt5,
        Ne.symm d5, Ne.symm t5, Ne.symm dt5]
    · obtain ⟨a1, a2, a3, a4, a5, a6⟩ := authorLineSolo_ne a
      simp +decide [List.count_append, count_ite_list, List.count_cons, d5, t5, dt5, a5,
        Ne.symm d5, Ne.symm t5, Ne.symm dt5, Ne.symm a5]
  · rw [mem_start_shape d al abntLine
      (hnotin _ (fun a => ((authorLineSolo_ne a).1).symm))
      d1.symm (by decide) (by decide) t1.symm dt1.symm (by decide) (by decide) (by decide)]
    simp +decide
  · rw [mem_start_shape d al figuresLine
      (hnotin _ (fun a => ((authorLineSolo_ne a).2.1).symm))
      d2.symm (by decide) (by decide) t2.symm dt2.symm (by decide) (by decide) (by decide)]
    simp +decide
  · rw [mem_start_shape d al floatLine
      (hnotin _ (fun a => ((authorLineSolo_ne a).2.2.1).symm))
      d3.symm (by decide) (by decide) t3.symm dt3.symm (by decide) (by decide) (by decide)]
    simp +decide
  · rw [mem_start_shape d al indentfirstLine
      (hnotin _ (fun a => ((authorLineSolo_ne a).2.2.2.1).symm))
      d4.symm (by decide) (by decide) t4.symm dt4.symm (by decide) (by decide) (by decide)]
    simp +decide
  · have s1 : List.Sublist (if "indentfirst" ∈ d.optSet then [indentfirstLine] else [])
        ((if "indentfirst" ∈ d.optSet then [indentfirstLine] else [])
          ++ (["\n"]
          ++ ((if optTruthy d.title then [titleLine (d.title.getD "")] else [])
          ++ (al
          ++ ((if optTruthy d.date then [dateLine (d.date.getD "")] else [])
          ++ ([openMarker]
          ++ ((if d.make_title then ["\\maketitle\n"] else [])
          ++ ["\\frenchspacing\n\n"]))))))) := List.sublist_append_left _ _
    have s2 := s1.append_left
      (if "figures" ∈ d.optSet then figuresLine :: (if "float" ∈ d.optSet then [floatLine] else []) else [])
    have s3 := s2.append_left (if "abnt" ∈ d.optSet then [abntLine] else [])
    exact s3.trans (List.sublist_append_right _ _)

/-- C5 witness: the amended theorem applied to a document enabling all four
option flags. -/
theorem c5_package_lines_witness :
    start_new_document ⟨"article", 12, "a4paper", none, none, none, none, false, ["abnt", "figures", "float", "indentfirst"]⟩
      = .ok ["\\documentclass[12pt, a4paper]{article}\n\n", inputencLine, abntLine, figuresLine, floatLine, indentfirstLine, "\n", openMarker, "\\frenchspacing\n\n"]
    ∧ ((["\\documentclass[12pt, a4paper]{article}\n\n", inputencLine, abntLine, figuresLine, floatLine, indentfirstLine, "\n", openMarker, "\\frenchspacing\n\n"] : List String).count openMarker = 1
    ∧ (abntLine ∈ (["\\documentclass[12pt, a4paper]{article}\n\n", inputencLine, abntLine, figuresLine, floatLine, indentfirstLine, "\n", openMarker, "\\frenchspacing\n\n"] : List String)
        ↔ "abnt" ∈ (⟨"article", 12, "a4paper", none, none, none, none, false, ["abnt", "figures", "float", "indentfirst"]⟩ : LaTeXDocument).optSet)
    ∧ (figuresLine ∈ (["\\documentclass[12pt, a4paper]{article}\n\n", inputencLine, abntLine, figuresLine, floatLine, indentfirstLine, "\n", openMarker, "\\frenchspacing\n\n"] : List String)
        ↔ "figures" ∈ (⟨"article", 12, "a4paper", none, none, none, none, false, ["abnt", "figures", "float", "indentfirst"]⟩ : LaTeXDocument).optSet)
    ∧ (floatLine ∈ (["\\documentclass[12pt, a4paper]{article}\n\n", inputencLine, abntLine, figuresLine, floatLine, indentfirstLine, "\n", openMarker, "\\frenchspacing\n\n"] : List String)
        ↔ ("figures" ∈ (⟨"article", 12, "a4paper", none, none, none, none, false, ["abnt", "figures", "float", "indentfirst"]⟩ : LaTeXDocument).optSet
          ∧ "float" ∈ (⟨"article", 12, "a4paper", none, none, none, none, false, ["abnt", "figures", "float", "indentfirst"]⟩ : LaTeXDocument).optSet))
    ∧ (indentfirstLine ∈ (["\\documentclass[12pt, a4paper]{article}\n\n", inputencLine, abntLine, figuresLine, floatLine, indentfirstLine, "\n", openMarker, "\\frenchspacing\n\n"] : List String)
        ↔ "indentfirst" ∈ (⟨"article", 12, "a4paper", none, none, none, none, false, ["abnt", "figures", "float", "indentfirst"]⟩ : LaTeXDocument).optSet)
    ∧ List.Sublist ((if "abnt" ∈ (⟨"article", 12, "a4paper", none, none, none, none, false, ["abnt", "figures", "float", "indentfirst"]⟩ : LaTeXDocument).optSet then [abntLine] else [])
        ++ ((if "figures" ∈ (⟨"article", 12, "a4paper", none, none, none, none, false, ["abnt", "figures", "float", "indentfirst"]⟩ : LaTeXDocument).optSet then figuresLine :: (if "float" ∈ (⟨"article", 12, "a4paper", none, none, none, none, false, ["abnt", "figures", "float", "indentfirst"]⟩ : LaTeXDocument).optSet then [floatLine] else []) else [])
        ++ (if "indentfirst" ∈ (⟨"article", 12, "a4paper", none, none, none, none, false, ["abnt", "figures", "float", "indentfirst"]⟩ : LaTeXDocument).optSet then [indentfirstLine] else [])))
        ["\\documentclass[12pt, a4paper]{article}\n\n", inputencLine, abntLine, figuresLine, floatLine, indentfirstLine, "\n", openMarker, "\\frenchspacing\n\n"]) :=
  ⟨by decide,
    c5_package_lines_amended
      ⟨"article", 12, "a4paper", none, none, none, none, false, ["abnt", "figures", "float", "indentfirst"]⟩
      ["\\documentclass[12pt, a4paper]{article}\n\n", inputencLine, abntLine, figuresLine, floatLine, indentfirstLine, "\n", openMarker, "\\frenchspacing\n\n"]
      (by decide)⟩

/-- A successful `start_new_document` result is non-empty, contains the
document-open marker, and contains no closing marker at all. -/
theorem start_ok_good (d : LaTeXDocument) (ls : List String)
    (h : start_new_document d = .ok ls) :
    ls ≠ [] ∧ (∀ l ∈ ls, l ≠ endMarker) ∧ openMarker ∈ ls := by
  obtain ⟨al, hau, hsh, rfl⟩ := start_ok_shape d ls h
  obtain ⟨_, _, _, _, _, d6⟩ := docClassLine_ne d
  obtain ⟨_, _, _, _, _, t6⟩ := titleLine_ne (d.title.getD "")
  obtain ⟨_, _, _, _, _, dt6⟩ := dateLine_ne (d.date.getD "")
  have hal : endMarker ∉ al := by
    rcases hsh with rfl | ⟨a, rfl⟩
    · simp
    · simp [((authorLineSolo_ne a).2.2.2.2.2).symm]
  refine ⟨by simp, ?_, by simp⟩
  intro l hl he
  subst he
  rw [mem_start_shape d al endMarker hal
    d6.symm (by decide) (by decide) t6.symm dt6.symm (by decide) (by decide) (by decide)] at hl
  simp +decide at hl

/-- Specification of `write_document` on a non-empty line list whose front
holds no closing marker: the result carries the closing marker exactly once,
as its last line, a second write returns the result unchanged, and the input
lines are preserved. -/
theorem write_spec (ls out : List String) (hg1 : ls ≠ [])
    (hg2 : ∀ l ∈ ls.dropLast, l ≠ endMarker)
    (hw : write_document ls = .ok out) :
    out.count endMarker = 1 ∧ out.getLast? = some endMarker
    ∧ write_document out = .ok out ∧ (∀ l ∈ ls, l ∈ out)
    ∧ out ≠ [] ∧ (∀ l ∈ out.dropLast, l ≠ endMarker) := by
  rcases hx : ls.getLast? with _ | x
  · exact absurd (List.getLast?_eq_none_iff.mp hx) hg1
  have hdec := eq_dropLast_concat_of_getLast? ls x hx
  simp only [write_document, hx] at hw
  by_cases hxe : x = endMarker
  · rw [if_pos hxe] at hw
    injection hw with hw'
    subst hw'
    subst hxe
    refine ⟨?_, hx, ?_, fun l hl => hl, hg1, hg2⟩
    · conv_lhs => rw [hdec]
      rw [List.count_append]
      rw [List.count_eq_zero.mpr (fun hmem => hg2 _ hmem rfl)]
      simp
    · simp only [write_document, hx]
      simp
  · rw [if_neg hxe] at hw
    injection hw with hw'
    subst hw'
    have hnone : ∀ l ∈ ls, l ≠ endMarker := by
      intro l hl
      rw [hdec] at hl
      rcases List.mem_append.mp hl with h' | h'
      · exact hg2 l h'
      · simp at h'
        subst h'
        exact hxe
    refine ⟨?_, List.getLast?_concat _, ?_, fun l hl => List.mem_append_left _ hl, by simp, ?_⟩
    · rw [List.count_append]
      rw [List.count_eq_zero.mpr (fun hmem => hnone _ hmem rfl)]
      simp
    · simp only [write_document, List.getLast?_concat]
      simp
    · rw [List.dropLast_concat]
      exact hnone

/-- Every reachable builder line list is non-empty and holds no closing
marker except possibly as its very last line. -/
theorem reaches_good (d : LaTeXDocument) (ls : List String) (h : ReachesLines d ls) :
    ls ≠ [] ∧ ∀ l ∈ ls.dropLast, l ≠ endMarker := by
  induction h with
  | init ls0 h0 =>
      obtain ⟨h1, h2, _⟩ := start_ok_good d ls0 h0
      exact ⟨h1, fun l hl => h2 l ((List.dropLast_sublist ls0).subset hl)⟩
  | app ls0 out c _hr hap ih =>
      obtain ⟨ih1, ih2⟩ := ih
      rcases hx : ls0.getLast? with _ | x
      · exact absurd (List.getLast?_eq_none_iff.mp hx) ih1
      have hdec := eq_dropLast_concat_of_getLast? ls0 x hx
      have hstr : ∀ l ∈ (if x = endMarker then ls0.dropLast else ls0), l ≠ endMarker := by
        by_cases hxe : x = endMarker
        · rw [if_pos hxe]
          exact ih2
        · rw [if_neg hxe]
          intro l hl
          rw [hdec] at hl
          rcases List.mem_append.mp hl with h' | h'
          · exact ih2 l h'
          · simp at h'
            subst h'
            exact hxe
      cases c with
      | text t => simp [append_content, remove_end_content, hx] at hap
      | math m =>
          simp only [append_content, remove_end_content, hx] at hap
          injection hap with hap'
          subst hap'
          refine ⟨by simp, ?_⟩
          rw [List.dropLast_concat]
          exact hstr
      | str s =>
          simp only [append_content, remove_end_content, hx] at hap
          injection hap with hap'
          subst hap'
          refine ⟨by simp, ?_⟩
          rw [List.dropLast_concat]
          exact hstr
  | wr ls0 out _hr hwr ih =>
      obtain ⟨ih1, ih2⟩ := ih
      obtain ⟨_, _, _, _, h5, h6⟩ := write_spec ls0 out ih1 ih2 hwr
      exact ⟨h5, h6⟩

/-- C7: from any reachable builder state, a successful write yields a line
sequence containing the closing marker exactly once, as its last line;
writing again returns the same sequence (so any number of consecutive
writes keeps exactly one closing marker); the open marker survives the
write; and the initial lines of a zero-append builder already contain the
open marker and no closing marker, which the write then adds. -/
theorem c7_write_marker_once (d : LaTeXDocument) (ls out : List String)
    (hr : ReachesLines d ls) (hw : write_document ls = .ok out) :
    out.count endMarker = 1
    ∧ out.getLast? = some endMarker
    ∧ write_document out = .ok out
    ∧ (openMarker ∈ ls → openMarker ∈ out)
    ∧ (∀ ls0, start_new_document d = .ok ls0 →
        openMarker ∈ ls0 ∧ ls0.count endMarker = 0) := by
  obtain ⟨hg1, hg2⟩ := reaches_good d ls hr
  obtain ⟨h1, h2, h3, h4, _, _⟩ := write_spec ls out hg1 hg2 hw
  refine ⟨h1, h2, h3, fun hm => h4 _ hm, ?_⟩
  intro ls0 h0
  obtain ⟨_, hne, hop⟩ := start_ok_good d ls0 h0
  exact ⟨hop, List.count_eq_zero.mpr (fun hmem => hne _ hmem rfl)⟩

/-- C7 witness: the theorem applied to the initial state of a plain document
written immediately (the zero-append case). -/
theorem c7_write_marker_witness :
    write_document ["\\documentclass[12pt, a4paper]{article}\n\n", inputencLine, "\n", openMarker, "\\frenchspacing\n\n"]
      = .ok ["\\documentclass[12pt, a4paper]{article}\n\n", inputencLine, "\n", openMarker, "\\frenchspacing\n\n", endMarker]
    ∧ (["\\documentclass[12pt, a4paper]{article}\n\n", inputencLine, "\n", openMarker, "\\frenchspacing\n\n", endMarker] : List String).count endMarker = 1
    ∧ (["\\documentclass[12pt, a4paper]{article}\n\n", inputencLine, "\n", openMarker, "\\frenchspacing\n\n", endMarker] : List String).getLast? = some endMarker
    ∧ write_document ["\\documentclass[12pt, a4paper]{article}\n\n", inputencLine, "\n", openMarker, "\\frenchspacing\n\n", endMarker]
        = .ok ["\\documentclass[12pt, a4paper]{article}\n\n", inputencLine, "\n", openMarker, "\\frenchspacing\n\n", endMarker]
    ∧ (openMarker ∈ (["\\documentclass[12pt, a4paper]{article}\n\n", inputencLine, "\n", openMarker, "\\frenchspacing\n\n"] : List String)
        → openMarker ∈ (["\\documentclass[12pt, a4paper]{article}\n\n", inputencLine, "\n", openMarker, "\\frenchspacing\n\n", endMarker] : List String))
    ∧ (∀ ls0, start_new_document ⟨"article", 12, "a4paper", none, none, none, none, false, []⟩ = .ok ls0 →
        openMarker ∈ ls0 ∧ ls0.count endMarker = 0) :=
  ⟨by decide,
    c7_write_marker_once ⟨"article", 12, "a4paper", none, none, none, none, false, []⟩
      ["\\documentclass[12pt, a4paper]{article}\n\n", inputencLine, "\n", openMarker, "\\frenchspacing\n\n"]
      ["\\documentclass[12pt, a4paper]{article}\n\n", inputencLine, "\n", openMarker, "\\frenchspacing\n\n", endMarker]
      (ReachesLines.init _ (by decide)) (by decide)⟩
